import Mathlib

/-!
Alarm Clock applet: configuration watcher and UI event relay.

A shallow embedding of `src/alarm-gconf.c` (`alarm_applet_gconf_global_change`)
and of the signal handlers of `src/ui.c` (`alarm_applet_alarm_changed`,
`alarm_applet_alarm_triggered`, `alarm_applet_alarm_cleared`,
`alarm_applet_notification_show`, `alarm_applet_status_update`).

Conventions of the embedding:

* a C string is a Lean `String`, one `Char` per C `char`; `strlen` is `String.length`;
* an `Alarm *` is the `Alarm` record it points to.  The record carries the address of
  the object, so two pointers are equal exactly when the records are;
* calls into the toolkit and into functions whose bodies are in other files are
  recorded, in program order, in the `log` field of the applet;
* `g_debug` output and the allocation and release of temporaries are not modelled;
* the translation lookup `_()` is the identity.
-/

namespace AlarmClock

/-! ## Data model -/

/-- An `Alarm` object.  `addr` is the address of the object; the other fields are the
members read by the two source files (`id`, `message`, `type`, `active`) and the
configuration directory the alarm is bound to.  `type` is the C enum `AlarmType`,
kept as the integer it is. -/
structure Alarm where
  addr : Nat
  gconf_dir : String
  id : Int
  message : String
  type : Int
  active : Bool
deriving DecidableEq, Repr

/-- The value carried by a configuration change event. -/
inductive GConfValue where
  | bool (b : Bool)
  | string (s : String)
deriving DecidableEq, Repr

/-- A `GConfEntry`: the full key path and the value, `none` for the NULL value of a
deletion. -/
structure GConfEntry where
  key : String
  value : Option GConfValue
deriving DecidableEq, Repr

/-- The two `GtkAction` members of the applet that the status icon activates, named
as the members are: `applet->action_snooze_all` and `applet->action_toggle_list_win`. -/
inductive AppletAction where
  | action_snooze_all
  | action_toggle_list_win
deriving DecidableEq, Repr

/-- Calls that leave the two source files, in the order they are made. -/
inductive Call where
  | alarm_settings_dialog_close
  | alarm_applet_alarms_remove (a : Alarm)
  | alarm_applet_alarms_add (a : Alarm)
  | notify_notification_show (summary body icon : String)
  | g_warning
  | gtk_status_icon_set_blinking (b : Bool)
  | alarm_applet_actions_update_sensitive
  | alarm_action_update_enabled
  | alarm_list_window_alarm_update (a : Alarm)
  | gtk_action_activate (action : AppletAction)
deriving DecidableEq, Repr

/-- The settings dialog: `alarm` is the alarm it is bound to, `none` for NULL. -/
structure AlarmSettingsDialog where
  alarm : Option Alarm
deriving DecidableEq, Repr

/-- The list window: `window_visible` is `GTK_WIDGET_VISIBLE (list_window->window)`. -/
structure AlarmListWindow where
  window_visible : Bool
deriving DecidableEq, Repr

/-- The status icon: its two boolean properties. -/
structure GtkStatusIcon where
  visible : Bool
  blinking : Bool
deriving DecidableEq, Repr

/-- The members of `AlarmApplet` used by the two source files.  `alarms` is the
`GList` of alarms in list order.  `settings_dialog` is set once by
`alarm_applet_ui_init` and dereferenced unguarded by the watcher, so it is a record
and not an optional one; `list_window` is tested against NULL and is optional. -/
structure AlarmApplet where
  alarms : List Alarm
  /-- Modelled from the spec: the member is declared in `alarm-applet.h`; the spec has it
  as "a running count of triggered alarms" that is incremented and decremented, so it
  is an integer without a bound. -/
  n_triggered : Int
  settings_dialog : AlarmSettingsDialog
  list_window : Option AlarmListWindow
  status_icon : GtkStatusIcon
  log : List Call
deriving DecidableEq, Repr

/-- What the two source files take from headers and from `alarm.c`: the watched
directory `ALARM_GCONF_DIR`, the id parser `alarm_gconf_dir_get_id` (negative when
the segment is not an alarm id), the enum value `ALARM_TYPE_TIMER` and the two icon
names. -/
structure Headers where
  ALARM_GCONF_DIR : String
  alarm_gconf_dir_get_id : String → Int
  ALARM_TYPE_TIMER : Int
  TIMER_ICON : String
  ALARM_ICON : String

/-! ## alarm-gconf.c -/

/-- The extraction loop of `alarm_applet_gconf_global_change`:
`for (i = ...; i < len; i++) { if (key[i] == '/') break; str = append (str, key[i]); }`.
The first argument bounds the number of iterations; `len - i` iterations always
suffice, because `i` grows by one each time. -/
def extract_loop (key : List Char) (len : Nat) : Nat → Nat → String → String
  | 0, _, str => str
  | fuel + 1, i, str =>
    if i < len then
      if key.getD i '\x00' = '/' then str
      else extract_loop key len fuel (i + 1) (str.push (key.getD i '\x00'))
    else str

/-- The segment handed to the id parser: the loop run from `i = strlen (dir) + 1`
with `len = strlen (entry->key)` and `str = ""`. -/
def extract_segment (dir key : String) : String :=
  extract_loop key.data key.length (key.length - (dir.length + 1)) (dir.length + 1) ""

/-- The search loop of `alarm_applet_gconf_global_change`: the first alarm of the list
whose id is `id` (`found` is whether there is one). -/
def find_alarm (id : Int) : List Alarm → Option Alarm
  | [] => none
  | a :: l => if a.id = id then some a else find_alarm id l

/-- Modelled from the spec: `alarm_settings_dialog_close` (alarm-settings.c) closes the
dialog, which is "opened/closed/presented by identifier-bound association with a
single alarm at a time": after the call the dialog is bound to no alarm. -/
def alarm_settings_dialog_close (applet : AlarmApplet) : AlarmApplet :=
  { applet with
    settings_dialog := { alarm := none }
    log := applet.log ++ [Call.alarm_settings_dialog_close] }

/-- Modelled from the spec: `alarm_applet_alarms_remove` (alarm-applet.c) "remove[s] the
alarm from the collection": the first list node holding this alarm is dropped, the
other nodes keep their order. -/
def alarm_applet_alarms_remove (applet : AlarmApplet) (a : Alarm) : AlarmApplet :=
  { applet with
    alarms := applet.alarms.erase a
    log := applet.log ++ [Call.alarm_applet_alarms_remove a] }

/-- Modelled from the spec: `alarm_applet_alarms_add` (alarm-applet.c) "add[s] it to the
collection", which is "an insertion-ordered list": the alarm goes to the end. -/
def alarm_applet_alarms_add (applet : AlarmApplet) (a : Alarm) : AlarmApplet :=
  { applet with
    alarms := applet.alarms ++ [a]
    log := applet.log ++ [Call.alarm_applet_alarms_add a] }

/-- Modelled from the spec: `alarm_new` (alarm.c) "construct[s] a new alarm bound to that
identifier and the watched directory".  `obj` is the newly allocated object with
whatever the configuration store holds for its other properties. -/
def alarm_new (obj : Alarm) (gconf_dir : String) (id : Int) : Alarm :=
  { obj with gconf_dir := gconf_dir, id := id }

/-- The change callback `alarm_applet_gconf_global_change (client, cnxn_id, entry, applet)`.
`obj` is the object `alarm_new` allocates if it is called. -/
def alarm_applet_gconf_global_change (h : Headers) (obj : Alarm) (entry : GConfEntry)
    (applet : AlarmApplet) : AlarmApplet :=
  let str := extract_segment h.ALARM_GCONF_DIR entry.key
  let id := h.alarm_gconf_dir_get_id str
  if id ≥ 0 then
    match find_alarm id applet.alarms, entry.value with
    | some a, none =>
      -- found && entry->value == NULL
      let applet :=
        if applet.settings_dialog.alarm = some a then alarm_settings_dialog_close applet
        else applet
      alarm_applet_alarms_remove applet a
    | none, some _ =>
      -- !found && entry->value != NULL
      alarm_applet_alarms_add applet (alarm_new obj h.ALARM_GCONF_DIR id)
    | some _, some _ =>
      -- found: the list window update is commented out
      applet
    | none, none => applet
  else applet

/-- Modelled from the spec: `alarm_gconf_dir_get_id` (alarm.c) "interpret[s] that segment
as an alarm identifier" and fails when it "does not parse as an integer id": a
non-empty string of decimal digits is its value, anything else is `-1`. -/
def alarm_gconf_dir_get_id (s : String) : Int :=
  if s.data ≠ [] ∧ s.data.all Char.isDigit = true then
    Int.ofNat (s.data.foldl (fun n c => 10 * n + (c.toNat - 48)) 0)
  else -1

/-- The header values used in the worked scenarios: the watched directory of the
applet, the decimal id parser, and stand-ins for the enum value and icon names. -/
def scenario_headers : Headers where
  ALARM_GCONF_DIR := "/apps/alarm-clock"
  alarm_gconf_dir_get_id := alarm_gconf_dir_get_id
  ALARM_TYPE_TIMER := 2
  TIMER_ICON := "alarm-timer"
  ALARM_ICON := "alarm-clock"

/-- An alarm of the worked scenarios: object number `n` with id `id`. -/
def scenario_alarm (n : Nat) (id : Int) : Alarm :=
  { addr := n, gconf_dir := "/apps/alarm-clock", id := id, message := "wake up",
    type := 1, active := true }

/-- An applet of the worked scenarios holding the given alarms, with the settings
dialog bound to `bound`. -/
def scenario_applet (alarms : List Alarm) (bound : Option Alarm) : AlarmApplet :=
  { alarms := alarms, n_triggered := 0, settings_dialog := { alarm := bound },
    list_window := some { window_visible := false },
    status_icon := { visible := true, blinking := false }, log := [] }

/-! ## ui.c -/

/-- The function `alarm_applet_notification_show (applet, summary, body, icon)`: one
notification is built for the status icon and shown; `shown` is the result of
`notify_notification_show`, and a failure is logged as a warning. -/
def alarm_applet_notification_show (shown : Bool) (applet : AlarmApplet)
    (summary body icon : String) : AlarmApplet :=
  let applet :=
    { applet with log := applet.log ++ [Call.notify_notification_show summary body icon] }
  if !shown then { applet with log := applet.log ++ [Call.g_warning] } else applet

/-- The function `alarm_applet_status_update (applet)`:
`gtk_status_icon_set_blinking (applet->status_icon, applet->n_triggered > 0)`. -/
def alarm_applet_status_update (applet : AlarmApplet) : AlarmApplet :=
  { applet with
    status_icon := { applet.status_icon with blinking := decide (applet.n_triggered > 0) }
    log := applet.log ++ [Call.gtk_status_icon_set_blinking (decide (applet.n_triggered > 0))] }

/-- The call `alarm_applet_actions_update_sensitive (applet)` (alarm-actions.c), recorded
in the log. -/
def alarm_applet_actions_update_sensitive (applet : AlarmApplet) : AlarmApplet :=
  { applet with log := applet.log ++ [Call.alarm_applet_actions_update_sensitive] }

/-- The call `alarm_action_update_enabled (applet)` (alarm-actions.c), recorded in the
log. -/
def alarm_action_update_enabled (applet : AlarmApplet) : AlarmApplet :=
  { applet with log := applet.log ++ [Call.alarm_action_update_enabled] }

/-- The call `alarm_list_window_alarm_update (applet->list_window, alarm)`
(alarm-list-window.c), recorded in the log. -/
def alarm_list_window_alarm_update (applet : AlarmApplet) (alarm : Alarm) : AlarmApplet :=
  { applet with log := applet.log ++ [Call.alarm_list_window_alarm_update alarm] }

/-- The handler `alarm_applet_alarm_changed (object, pspec, data)`: `alarm` is the object,
`pname` is `pspec->name`. -/
def alarm_applet_alarm_changed (alarm : Alarm) (pname : String) (applet : AlarmApplet) :
    AlarmApplet :=
  -- Update Actions
  let applet := if pname = "active" then alarm_action_update_enabled applet else applet
  -- Update List Window
  let applet :=
    match applet.list_window with
    | some w => if w.window_visible then alarm_list_window_alarm_update applet alarm else applet
    | none => applet
  -- Update Settings: a debug message only
  if applet.settings_dialog.alarm = some alarm then applet else applet

/-- The fixed body text of the notification. -/
def notification_body : String := "You can snooze or stop alarms from the Alarm Clock menu."

/-- The handler `alarm_applet_alarm_triggered (alarm, data)`; `shown` is the result of
`notify_notification_show`. -/
def alarm_applet_alarm_triggered (h : Headers) (shown : Bool) (alarm : Alarm)
    (applet : AlarmApplet) : AlarmApplet :=
  -- Keep track of how many alarms have been triggered
  let applet := { applet with n_triggered := applet.n_triggered + 1 }
  -- Show notification
  let summary := alarm.message
  let body := notification_body
  let icon := if alarm.type = h.ALARM_TYPE_TIMER then h.TIMER_ICON else h.ALARM_ICON
  let applet := alarm_applet_notification_show shown applet summary body icon
  -- Update status icon
  let applet := alarm_applet_status_update applet
  -- Update actions
  alarm_applet_actions_update_sensitive applet

/-- The handler `alarm_applet_alarm_cleared (alarm, data)`. -/
def alarm_applet_alarm_cleared (_alarm : Alarm) (applet : AlarmApplet) : AlarmApplet :=
  let applet := { applet with n_triggered := applet.n_triggered - 1 }
  let applet := alarm_applet_status_update applet
  alarm_applet_actions_update_sensitive applet

/-- A signal of an alarm delivered to the applet: "alarm" (triggered), with the outcome
of showing its notification, or "cleared". -/
inductive Signal where
  | triggered (alarm : Alarm) (shown : Bool)
  | cleared (alarm : Alarm)
deriving DecidableEq, Repr

/-- The handler connected to a signal. -/
def Signal.handle (h : Headers) (applet : AlarmApplet) : Signal → AlarmApplet
  | .triggered alarm shown => alarm_applet_alarm_triggered h shown alarm applet
  | .cleared alarm => alarm_applet_alarm_cleared alarm applet

/-- The applet after a sequence of signals, handled one after the other. -/
def run_signals (h : Headers) (applet : AlarmApplet) (sigs : List Signal) : AlarmApplet :=
  sigs.foldl (Signal.handle h) applet

/-- Whether a signal is "alarm" (triggered). -/
def Signal.is_triggered : Signal → Bool
  | .triggered _ _ => true
  | .cleared _ => false

/-- The number of triggered signals in a sequence. -/
def count_triggered (sigs : List Signal) : Nat := (sigs.filter Signal.is_triggered).length

/-- The number of cleared signals in a sequence. -/
def count_cleared (sigs : List Signal) : Nat :=
  (sigs.filter (fun s => !s.is_triggered)).length

/-- Balanced pairs: at every point of the sequence, the cleared signals so far are at
most the triggered signals so far, so that each cleared has its own earlier
triggered. -/
def balanced (sigs : List Signal) : Prop :=
  ∀ k, k ≤ sigs.length → count_cleared (sigs.take k) ≤ count_triggered (sigs.take k)

instance (sigs : List Signal) : Decidable (balanced sigs) := by
  unfold balanced
  infer_instance

/-- The status icon callback `alarm_applet_status_activate (status_icon, user_data)`:
the snooze-all action is activated if alarms are triggered, the list window toggle
otherwise.  What the activated action then does is not part of this function. -/
def alarm_applet_status_activate (applet : AlarmApplet) : AlarmApplet :=
  -- Snooze triggered alarms if any
  if applet.n_triggered > 0 then
    { applet with log := applet.log ++ [Call.gtk_action_activate .action_snooze_all] }
  else
    -- No alarms triggered, toggle list window
    { applet with log := applet.log ++ [Call.gtk_action_activate .action_toggle_list_win] }

/-- Whether a recorded call is the activation of an action. -/
def Call.is_activation : Call → Bool
  | .gtk_action_activate _ => true
  | _ => false

/-- Whether a recorded call is the showing of a desktop notification. -/
def Call.is_notification : Call → Bool
  | .notify_notification_show _ _ _ => true
  | _ => false

/-! ## Lemmas on the loops -/

theorem extract_loop_eq (key : List Char) (fuel i : Nat) (str : String)
    (hfuel : key.length - i ≤ fuel) :
    extract_loop key key.length fuel i str
      = ⟨str.data ++ (key.drop i).takeWhile (fun c => decide (c ≠ '/'))⟩ := by
  induction fuel generalizing i str with
  | zero =>
    have hi : key.length ≤ i := by omega
    simp [extract_loop, List.drop_eq_nil_of_le hi]
  | succ fuel ih =>
    unfold extract_loop
    by_cases hi : i < key.length
    · have hdrop : key.drop i = key[i] :: key.drop (i + 1) := List.drop_eq_getElem_cons hi
      have hget : key.getD i '\x00' = key[i] := by
        simp [List.getD_eq_getElem?_getD, List.getElem?_eq_getElem hi]
      rw [if_pos hi, hget, hdrop]
      by_cases hc : key[i] = '/'
      · simp [hc]
      · rw [if_neg hc, ih (i + 1) _ (by omega),
          List.takeWhile_cons_of_pos (by simpa using hc)]
        simp only [String.push, List.append_assoc, List.singleton_append]
    · have hi2 : key.length ≤ i := by omega
      simp [hi, List.drop_eq_nil_of_le hi2]

theorem extract_segment_eq (dir key : String) :
    extract_segment dir key
      = ⟨(key.data.drop (dir.length + 1)).takeWhile (fun c => decide (c ≠ '/'))⟩ := by
  have hlen : key.length = key.data.length := rfl
  unfold extract_segment
  rw [hlen, extract_loop_eq key.data _ _ "" (Nat.le_refl _)]
  rfl

theorem find_alarm_none {id : Int} {l : List Alarm} :
    find_alarm id l = none ↔ ∀ b ∈ l, b.id ≠ id := by
  induction l with
  | nil => simp [find_alarm]
  | cons a l ih =>
    by_cases ha : a.id = id
    · simp [find_alarm, ha]
    · simp [find_alarm, ha, ih]

theorem find_alarm_some {id : Int} {l : List Alarm} {a : Alarm} (hf : find_alarm id l = some a) :
    ∃ l1 l2, l = l1 ++ a :: l2 ∧ a.id = id ∧ ∀ b ∈ l1, b.id ≠ id := by
  induction l with
  | nil => simp [find_alarm] at hf
  | cons x l ih =>
    by_cases hx : x.id = id
    · simp [find_alarm, hx] at hf
      subst hf
      exact ⟨[], l, rfl, hx, by simp⟩
    · simp [find_alarm, hx] at hf
      obtain ⟨l1, l2, hl, hid, hl1⟩ := ih hf
      refine ⟨x :: l1, l2, by simp [hl], hid, ?_⟩
      intro b hb
      rcases List.mem_cons.mp hb with rfl | hb
      · exact hx
      · exact hl1 b hb

theorem find_alarm_of_mem {id : Int} {l : List Alarm} (hex : ∃ b ∈ l, b.id = id) :
    ∃ a, find_alarm id l = some a := by
  cases hf : find_alarm id l with
  | some a => exact ⟨a, rfl⟩
  | none =>
    obtain ⟨b, hb, hbid⟩ := hex
    exact absurd hbid (find_alarm_none.mp hf b hb)

theorem erase_first_match {id : Int} {l1 l2 : List Alarm} {a : Alarm} (ha : a.id = id)
    (hl1 : ∀ b ∈ l1, b.id ≠ id) : (l1 ++ a :: l2).erase a = l1 ++ l2 := by
  have hnot : a ∉ l1 := fun hmem => hl1 a hmem ha
  rw [List.erase_append_right _ hnot, List.erase_cons_head]

theorem gconf_change_delete (h : Headers) (obj : Alarm) (entry : GConfEntry)
    (applet : AlarmApplet) (a : Alarm)
    (hid : 0 ≤ h.alarm_gconf_dir_get_id (extract_segment h.ALARM_GCONF_DIR entry.key))
    (hf : find_alarm (h.alarm_gconf_dir_get_id (extract_segment h.ALARM_GCONF_DIR entry.key))
      applet.alarms = some a)
    (hval : entry.value = none) :
    alarm_applet_gconf_global_change h obj entry applet
      = alarm_applet_alarms_remove
          (if applet.settings_dialog.alarm = some a then alarm_settings_dialog_close applet
            else applet) a := by
  unfold alarm_applet_gconf_global_change
  simp only []
  rw [if_pos (by omega), hf, hval]

theorem gconf_change_create (h : Headers) (obj : Alarm) (entry : GConfEntry)
    (applet : AlarmApplet)
    (hid : 0 ≤ h.alarm_gconf_dir_get_id (extract_segment h.ALARM_GCONF_DIR entry.key))
    (hf : find_alarm (h.alarm_gconf_dir_get_id (extract_segment h.ALARM_GCONF_DIR entry.key))
      applet.alarms = none)
    (hval : entry.value ≠ none) :
    alarm_applet_gconf_global_change h obj entry applet
      = alarm_applet_alarms_add applet (alarm_new obj h.ALARM_GCONF_DIR
          (h.alarm_gconf_dir_get_id (extract_segment h.ALARM_GCONF_DIR entry.key))) := by
  unfold alarm_applet_gconf_global_change
  simp only []
  rw [if_pos (by omega), hf]
  cases hv : entry.value with
  | none => exact absurd hv hval
  | some v => rfl

theorem gconf_change_keep (h : Headers) (obj : Alarm) (entry : GConfEntry)
    (applet : AlarmApplet)
    (hcase : (∃ a, find_alarm (h.alarm_gconf_dir_get_id
          (extract_segment h.ALARM_GCONF_DIR entry.key)) applet.alarms = some a
        ∧ entry.value ≠ none)
      ∨ (find_alarm (h.alarm_gconf_dir_get_id
          (extract_segment h.ALARM_GCONF_DIR entry.key)) applet.alarms = none
        ∧ entry.value = none)) :
    alarm_applet_gconf_global_change h obj entry applet = applet := by
  unfold alarm_applet_gconf_global_change
  simp only []
  split
  · rcases hcase with ⟨a, hf, hval⟩ | ⟨hf, hval⟩
    · rw [hf]
      cases hv : entry.value with
      | none => exact absurd hv hval
      | some v => rfl
    · rw [hf, hval]
  · rfl

theorem remove_alarms_of_dialog_step (applet : AlarmApplet) (a : Alarm) :
    (alarm_applet_alarms_remove
      (if applet.settings_dialog.alarm = some a then alarm_settings_dialog_close applet
        else applet) a).alarms = applet.alarms.erase a := by
  split <;> rfl

theorem gconf_change_cases (h : Headers) (obj : Alarm) (entry : GConfEntry)
    (applet : AlarmApplet) :
    alarm_applet_gconf_global_change h obj entry applet = applet
    ∨ (∃ a, 0 ≤ h.alarm_gconf_dir_get_id (extract_segment h.ALARM_GCONF_DIR entry.key)
        ∧ find_alarm (h.alarm_gconf_dir_get_id (extract_segment h.ALARM_GCONF_DIR entry.key))
            applet.alarms = some a
        ∧ entry.value = none)
    ∨ (0 ≤ h.alarm_gconf_dir_get_id (extract_segment h.ALARM_GCONF_DIR entry.key)
        ∧ find_alarm (h.alarm_gconf_dir_get_id (extract_segment h.ALARM_GCONF_DIR entry.key))
            applet.alarms = none
        ∧ entry.value ≠ none) := by
  by_cases hid : 0 ≤ h.alarm_gconf_dir_get_id (extract_segment h.ALARM_GCONF_DIR entry.key)
  · cases hf : find_alarm (h.alarm_gconf_dir_get_id
        (extract_segment h.ALARM_GCONF_DIR entry.key)) applet.alarms with
    | none =>
      by_cases hval : entry.value = none
      · exact Or.inl (gconf_change_keep h obj entry applet (Or.inr ⟨hf, hval⟩))
      · exact Or.inr (Or.inr ⟨hid, rfl, hval⟩)
    | some a =>
      by_cases hval : entry.value = none
      · exact Or.inr (Or.inl ⟨a, hid, rfl, hval⟩)
      · exact Or.inl (gconf_change_keep h obj entry applet (Or.inl ⟨a, hf, hval⟩))
  · left
    unfold alarm_applet_gconf_global_change
    simp only []
    rw [if_neg (by omega)]

theorem no_sep_takeWhile (l : List Char) :
    '/' ∉ l.takeWhile (fun c => decide (c ≠ '/')) := by
  intro hmem
  have := List.mem_takeWhile_imp hmem
  simp at this

theorem dropWhile_sep_head (l : List Char) :
    l.dropWhile (fun c => decide (c ≠ '/')) = []
    ∨ (l.dropWhile (fun c => decide (c ≠ '/'))).head? = some '/' := by
  induction l with
  | nil => left; rfl
  | cons c l ih =>
    by_cases hc : c = '/'
    · right
      simp [List.dropWhile_cons, hc]
    · rw [List.dropWhile_cons_of_pos (by simpa using hc)]
      exact ih

theorem length_le_takeWhile_of_no_sep (p q : List Char) (hp : '/' ∉ p) :
    p.length ≤ ((p ++ q).takeWhile (fun c => decide (c ≠ '/'))).length := by
  induction p with
  | nil => simp
  | cons c p ih =>
    have hc : c ≠ '/' := fun hc => hp (by simp [hc])
    have hp2 : '/' ∉ p := fun hmem => hp (List.mem_cons_of_mem _ hmem)
    rw [List.cons_append, List.takeWhile_cons_of_pos (by simpa using hc)]
    simp only [List.length_cons]
    exact Nat.succ_le_succ (ih hp2)

theorem extract_segment_under_dir (dir rem : String) :
    extract_segment dir (dir ++ "/" ++ rem)
      = ⟨rem.data.takeWhile (fun c => decide (c ≠ '/'))⟩ := by
  rw [extract_segment_eq]
  have hdata : (dir ++ "/" ++ rem).data = (dir.data ++ ['/']) ++ rem.data := by
    simp [String.data_append]
  have hlen : dir.length + 1 = (dir.data ++ ['/']).length := by
    show dir.data.length + 1 = (dir.data ++ ['/']).length
    simp
  rw [hdata, hlen, List.drop_left]

theorem handle_n_triggered (h : Headers) (applet : AlarmApplet) (sig : Signal) :
    (Signal.handle h applet sig).n_triggered
      = applet.n_triggered + (if sig.is_triggered then 1 else -1) := by
  cases sig with
  | triggered alarm shown =>
    cases shown <;> rfl
  | cleared alarm => rfl

theorem run_signals_n_triggered (h : Headers) (sigs : List Signal) (applet : AlarmApplet) :
    (run_signals h applet sigs).n_triggered
      = applet.n_triggered + (count_triggered sigs : Int) - (count_cleared sigs : Int) := by
  induction sigs generalizing applet with
  | nil => simp [run_signals, count_triggered, count_cleared]
  | cons sig sigs ih =>
    have hstep : run_signals h applet (sig :: sigs)
        = run_signals h (Signal.handle h applet sig) sigs := rfl
    rw [hstep, ih, handle_n_triggered]
    cases hs : sig.is_triggered <;>
      simp [count_triggered, count_cleared, hs] <;> omega

theorem gconf_change_delete_unique (h : Headers) (obj : Alarm) (entry : GConfEntry)
    (applet : AlarmApplet) (X : Int)
    (huniq : (applet.alarms.map Alarm.id).Nodup)
    (hval : entry.value = none)
    (hid : h.alarm_gconf_dir_get_id (extract_segment h.ALARM_GCONF_DIR entry.key) = X)
    (hX : 0 ≤ X)
    (hex : ∃ a ∈ applet.alarms, a.id = X) :
    ∃ l1 a l2, applet.alarms = l1 ++ a :: l2 ∧ a.id = X
      ∧ (alarm_applet_gconf_global_change h obj entry applet).alarms = l1 ++ l2
      ∧ ∀ b ∈ l1 ++ l2, b.id ≠ X := by
  obtain ⟨a, hf⟩ := find_alarm_of_mem hex
  obtain ⟨l1, l2, hl, haid, hl1⟩ := find_alarm_some hf
  have hafter : (alarm_applet_gconf_global_change h obj entry applet).alarms = l1 ++ l2 := by
    rw [gconf_change_delete h obj entry applet a (by omega) (by rw [hid]; exact hf) hval,
      remove_alarms_of_dialog_step, hl, erase_first_match haid hl1]
  refine ⟨l1, a, l2, hl, haid, hafter, ?_⟩
  rw [hl, List.map_append, List.map_cons, haid] at huniq
  have htail : (X :: l2.map Alarm.id).Nodup := (List.nodup_append.mp huniq).2.1
  have hnot : X ∉ l2.map Alarm.id := (List.nodup_cons.mp htail).1
  intro b hb
  rcases List.mem_append.mp hb with hb1 | hb2
  · exact hl1 b hb1
  · intro hbid
    exact hnot (List.mem_map.mpr ⟨b, hb2, hbid⟩)

/-! ## The configuration watcher -/

/-- C1: when the extracted segment does not parse as an alarm id (the parser returns a
negative value), the change callback returns the applet state it was given: the
collection, the dialog binding and the record of calls are all unchanged. -/
theorem gconf_change_unparsed_noop (h : Headers) (obj : Alarm) (entry : GConfEntry)
    (applet : AlarmApplet)
    (hneg : h.alarm_gconf_dir_get_id (extract_segment h.ALARM_GCONF_DIR entry.key) < 0) :
    alarm_applet_gconf_global_change h obj entry applet = applet := by
  unfold alarm_applet_gconf_global_change
  simp only []
  rw [if_neg (by omega)]

theorem gconf_change_unparsed_noop_witness :
    scenario_headers.alarm_gconf_dir_get_id
        (extract_segment scenario_headers.ALARM_GCONF_DIR "/apps/alarm-clock/show_label") < 0
    ∧ alarm_applet_gconf_global_change scenario_headers (scenario_alarm 9 0)
        { key := "/apps/alarm-clock/show_label", value := none }
        (scenario_applet [scenario_alarm 1 1, scenario_alarm 2 3] (some (scenario_alarm 1 1)))
      = scenario_applet [scenario_alarm 1 1, scenario_alarm 2 3] (some (scenario_alarm 1 1)) :=
  ⟨by decide, gconf_change_unparsed_noop _ _ _ _ (by decide)⟩

/-- C2: in a collection whose alarm ids are pairwise distinct (the invariant of the
data model), on a deletion event (value absent) for an id X that some alarm of the
collection has: afterwards the collection contains no alarm with id X, exactly one
alarm has been removed, and all other alarms are still there in their original
relative order (the collection is the old one with the alarm of id X taken out). -/
theorem gconf_change_delete_removes_matching (h : Headers) (obj : Alarm) (entry : GConfEntry)
    (applet : AlarmApplet) (X : Int)
    (huniq : (applet.alarms.map Alarm.id).Nodup)
    (hval : entry.value = none)
    (hid : h.alarm_gconf_dir_get_id (extract_segment h.ALARM_GCONF_DIR entry.key) = X)
    (hX : 0 ≤ X)
    (hex : ∃ a ∈ applet.alarms, a.id = X) :
    (∀ b ∈ (alarm_applet_gconf_global_change h obj entry applet).alarms, b.id ≠ X)
    ∧ (alarm_applet_gconf_global_change h obj entry applet).alarms.length + 1
        = applet.alarms.length
    ∧ (∃ l1 a l2, applet.alarms = l1 ++ a :: l2 ∧ a.id = X
        ∧ (alarm_applet_gconf_global_change h obj entry applet).alarms = l1 ++ l2)
    ∧ (∀ b ∈ applet.alarms, b.id ≠ X →
        b ∈ (alarm_applet_gconf_global_change h obj entry applet).alarms) := by
  obtain ⟨l1, a, l2, hl, haid, hafter, hnone⟩ :=
    gconf_change_delete_unique h obj entry applet X huniq hval hid hX hex
  refine ⟨?_, ?_, ⟨l1, a, l2, hl, haid, hafter⟩, ?_⟩
  · rw [hafter]
    exact hnone
  · rw [hafter, hl]
    simp only [List.length_append, List.length_cons]
    omega
  · intro b hb hbid
    rw [hafter]
    rw [hl] at hb
    rcases List.mem_append.mp hb with hb1 | hb2
    · exact List.mem_append_left _ hb1
    · rcases List.mem_cons.mp hb2 with hba | hb3
      · exact absurd (hba ▸ haid) hbid
      · exact List.mem_append_right _ hb3

/-- The scenario of C2: ids 1, 3 and 5 are present and a deletion event arrives for
id 3; afterwards the alarms with ids 1 and 5 are left, in that order. -/
theorem gconf_change_delete_removes_matching_witness :
    (((scenario_applet [scenario_alarm 1 1, scenario_alarm 2 3, scenario_alarm 3 5]
          none).alarms.map Alarm.id).Nodup
      ∧ (⟨"/apps/alarm-clock/3", none⟩ : GConfEntry).value = none
      ∧ scenario_headers.alarm_gconf_dir_get_id
          (extract_segment scenario_headers.ALARM_GCONF_DIR "/apps/alarm-clock/3") = 3
      ∧ (0 : Int) ≤ 3
      ∧ ∃ a ∈ (scenario_applet [scenario_alarm 1 1, scenario_alarm 2 3, scenario_alarm 3 5]
          none).alarms, a.id = 3)
    ∧ ((∀ b ∈ (alarm_applet_gconf_global_change scenario_headers (scenario_alarm 9 0)
          { key := "/apps/alarm-clock/3", value := none }
          (scenario_applet [scenario_alarm 1 1, scenario_alarm 2 3, scenario_alarm 3 5]
            none)).alarms, b.id ≠ 3)
      ∧ (alarm_applet_gconf_global_change scenario_headers (scenario_alarm 9 0)
          { key := "/apps/alarm-clock/3", value := none }
          (scenario_applet [scenario_alarm 1 1, scenario_alarm 2 3, scenario_alarm 3 5]
            none)).alarms.length + 1
        = (scenario_applet [scenario_alarm 1 1, scenario_alarm 2 3, scenario_alarm 3 5]
            none).alarms.length
      ∧ (∃ l1 a l2, (scenario_applet [scenario_alarm 1 1, scenario_alarm 2 3,
            scenario_alarm 3 5] none).alarms = l1 ++ a :: l2 ∧ a.id = 3
          ∧ (alarm_applet_gconf_global_change scenario_headers (scenario_alarm 9 0)
              { key := "/apps/alarm-clock/3", value := none }
              (scenario_applet [scenario_alarm 1 1, scenario_alarm 2 3, scenario_alarm 3 5]
                none)).alarms = l1 ++ l2)
      ∧ (∀ b ∈ (scenario_applet [scenario_alarm 1 1, scenario_alarm 2 3, scenario_alarm 3 5]
            none).alarms, b.id ≠ 3 →
          b ∈ (alarm_applet_gconf_global_change scenario_headers (scenario_alarm 9 0)
            { key := "/apps/alarm-clock/3", value := none }
            (scenario_applet [scenario_alarm 1 1, scenario_alarm 2 3, scenario_alarm 3 5]
              none)).alarms))
    ∧ (alarm_applet_gconf_global_change scenario_headers (scenario_alarm 9 0)
          { key := "/apps/alarm-clock/3", value := none }
          (scenario_applet [scenario_alarm 1 1, scenario_alarm 2 3, scenario_alarm 3 5]
            none)).alarms
        = [scenario_alarm 1 1, scenario_alarm 3 5] :=
  ⟨⟨by decide, rfl, by decide, by decide, by decide⟩,
    gconf_change_delete_removes_matching scenario_headers (scenario_alarm 9 0)
      { key := "/apps/alarm-clock/3", value := none }
      (scenario_applet [scenario_alarm 1 1, scenario_alarm 2 3, scenario_alarm 3 5] none) 3
      (by decide) rfl (by decide) (by decide) (by decide),
    by decide⟩

/-- C3: on a creation event (value present) for an id X that no alarm of the collection
has, the collection afterwards is the old one followed by one new alarm: exactly one
alarm has id X, every alarm with id X is bound to the watched directory, and every
alarm present before is still present. -/
theorem gconf_change_create_adds_one (h : Headers) (obj : Alarm) (entry : GConfEntry)
    (applet : AlarmApplet) (X : Int)
    (hval : entry.value ≠ none)
    (hid : h.alarm_gconf_dir_get_id (extract_segment h.ALARM_GCONF_DIR entry.key) = X)
    (hX : 0 ≤ X)
    (habs : ∀ a ∈ applet.alarms, a.id ≠ X) :
    ((alarm_applet_gconf_global_change h obj entry applet).alarms.filter
        (fun b => decide (b.id = X))).length = 1
    ∧ (∀ b ∈ (alarm_applet_gconf_global_change h obj entry applet).alarms,
        b.id = X → b.gconf_dir = h.ALARM_GCONF_DIR)
    ∧ (∀ a ∈ applet.alarms, a ∈ (alarm_applet_gconf_global_change h obj entry applet).alarms)
    ∧ (∃ a, a.id = X ∧ (alarm_applet_gconf_global_change h obj entry applet).alarms
        = applet.alarms ++ [a]) := by
  have hf : find_alarm (h.alarm_gconf_dir_get_id
      (extract_segment h.ALARM_GCONF_DIR entry.key)) applet.alarms = none := by
    rw [hid]; exact find_alarm_none.mpr habs
  have hafter : (alarm_applet_gconf_global_change h obj entry applet).alarms
      = applet.alarms ++ [alarm_new obj h.ALARM_GCONF_DIR X] := by
    rw [gconf_change_create h obj entry applet (by omega) hf hval, hid]
    rfl
  have hold : applet.alarms.filter (fun b => decide (b.id = X)) = [] := by
    rw [List.filter_eq_nil_iff]
    intro c hc
    simpa using habs c hc
  refine ⟨?_, ?_, ?_, ⟨alarm_new obj h.ALARM_GCONF_DIR X, rfl, hafter⟩⟩
  · rw [hafter, List.filter_append, hold]
    simp [alarm_new]
  · intro b hb hbid
    rw [hafter] at hb
    rcases List.mem_append.mp hb with hb1 | hb2
    · exact absurd hbid (habs b hb1)
    · rw [List.mem_singleton.mp hb2]
      rfl
  · intro a ha
    rw [hafter]
    exact List.mem_append_left _ ha

/-- The scenario of C3: ids 1 and 3 are present and an event with a value arrives for
key `<dir>/2`; afterwards the ids are 1, 3 and 2, that is, the set of ids 1, 2, 3. -/
theorem gconf_change_create_adds_one_witness :
    ((⟨"/apps/alarm-clock/2", some (.bool true)⟩ : GConfEntry).value ≠ none
      ∧ scenario_headers.alarm_gconf_dir_get_id
          (extract_segment scenario_headers.ALARM_GCONF_DIR "/apps/alarm-clock/2") = 2
      ∧ (0 : Int) ≤ 2
      ∧ ∀ a ∈ (scenario_applet [scenario_alarm 1 1, scenario_alarm 2 3] none).alarms, a.id ≠ 2)
    ∧ (((alarm_applet_gconf_global_change scenario_headers (scenario_alarm 9 0)
          { key := "/apps/alarm-clock/2", value := some (.bool true) }
          (scenario_applet [scenario_alarm 1 1, scenario_alarm 2 3] none)).alarms.filter
          (fun b => decide (b.id = 2))).length = 1
      ∧ (∀ b ∈ (alarm_applet_gconf_global_change scenario_headers (scenario_alarm 9 0)
          { key := "/apps/alarm-clock/2", value := some (.bool true) }
          (scenario_applet [scenario_alarm 1 1, scenario_alarm 2 3] none)).alarms,
          b.id = 2 → b.gconf_dir = scenario_headers.ALARM_GCONF_DIR)
      ∧ (∀ a ∈ (scenario_applet [scenario_alarm 1 1, scenario_alarm 2 3] none).alarms,
          a ∈ (alarm_applet_gconf_global_change scenario_headers (scenario_alarm 9 0)
            { key := "/apps/alarm-clock/2", value := some (.bool true) }
            (scenario_applet [scenario_alarm 1 1, scenario_alarm 2 3] none)).alarms)
      ∧ (∃ a, a.id = 2 ∧ (alarm_applet_gconf_global_change scenario_headers (scenario_alarm 9 0)
          { key := "/apps/alarm-clock/2", value := some (.bool true) }
          (scenario_applet [scenario_alarm 1 1, scenario_alarm 2 3] none)).alarms
          = (scenario_applet [scenario_alarm 1 1, scenario_alarm 2 3] none).alarms ++ [a]))
    ∧ ((alarm_applet_gconf_global_change scenario_headers (scenario_alarm 9 0)
          { key := "/apps/alarm-clock/2", value := some (.bool true) }
          (scenario_applet [scenario_alarm 1 1, scenario_alarm 2 3] none)).alarms.map Alarm.id
        = [1, 3, 2]
      ∧ ([1, 3, 2] : List Int).toFinset = {1, 2, 3}) :=
  ⟨⟨by decide, by decide, by decide, by decide⟩,
    gconf_change_create_adds_one scenario_headers (scenario_alarm 9 0)
      { key := "/apps/alarm-clock/2", value := some (.bool true) }
      (scenario_applet [scenario_alarm 1 1, scenario_alarm 2 3] none) 2
      (by decide) (by decide) (by decide) (by decide),
    by decide, by decide⟩

/-- C4: for an event whose segment parses to a valid id X, if an alarm with id X exists
and the event carries a value, or no alarm with id X exists and the value is absent,
the callback returns the applet state it was given: the alarm collection and the
settings-dialog binding are unchanged, and no call is made. -/
theorem gconf_change_existing_or_missing_noop (h : Headers) (obj : Alarm) (entry : GConfEntry)
    (applet : AlarmApplet) (X : Int)
    (hid : h.alarm_gconf_dir_get_id (extract_segment h.ALARM_GCONF_DIR entry.key) = X)
    (_hX : 0 ≤ X)
    (hcase : ((∃ a ∈ applet.alarms, a.id = X) ∧ entry.value ≠ none)
      ∨ ((∀ a ∈ applet.alarms, a.id ≠ X) ∧ entry.value = none)) :
    (alarm_applet_gconf_global_change h obj entry applet).alarms = applet.alarms
    ∧ (alarm_applet_gconf_global_change h obj entry applet).settings_dialog
        = applet.settings_dialog
    ∧ alarm_applet_gconf_global_change h obj entry applet = applet := by
  have hkeep : alarm_applet_gconf_global_change h obj entry applet = applet := by
    apply gconf_change_keep
    rw [hid]
    rcases hcase with ⟨hex, hval⟩ | ⟨habs, hval⟩
    · exact Or.inl ⟨(find_alarm_of_mem hex).choose, (find_alarm_of_mem hex).choose_spec, hval⟩
    · exact Or.inr ⟨find_alarm_none.mpr habs, hval⟩
  rw [hkeep]
  exact ⟨rfl, rfl, rfl⟩

theorem gconf_change_existing_or_missing_noop_witness :
    (scenario_headers.alarm_gconf_dir_get_id
          (extract_segment scenario_headers.ALARM_GCONF_DIR "/apps/alarm-clock/3/message") = 3
      ∧ (0 : Int) ≤ 3
      ∧ (((∃ a ∈ (scenario_applet [scenario_alarm 1 1, scenario_alarm 2 3]
              (some (scenario_alarm 2 3))).alarms, a.id = 3)
          ∧ (⟨"/apps/alarm-clock/3/message", some (.string "tea")⟩ : GConfEntry).value ≠ none)
        ∨ ((∀ a ∈ (scenario_applet [scenario_alarm 1 1, scenario_alarm 2 3]
              (some (scenario_alarm 2 3))).alarms, a.id ≠ 3)
          ∧ (⟨"/apps/alarm-clock/3/message", some (.string "tea")⟩ : GConfEntry).value = none)))
    ∧ ((alarm_applet_gconf_global_change scenario_headers (scenario_alarm 9 0)
          { key := "/apps/alarm-clock/3/message", value := some (.string "tea") }
          (scenario_applet [scenario_alarm 1 1, scenario_alarm 2 3]
            (some (scenario_alarm 2 3)))).alarms
        = (scenario_applet [scenario_alarm 1 1, scenario_alarm 2 3]
            (some (scenario_alarm 2 3))).alarms
      ∧ (alarm_applet_gconf_global_change scenario_headers (scenario_alarm 9 0)
          { key := "/apps/alarm-clock/3/message", value := some (.string "tea") }
          (scenario_applet [scenario_alarm 1 1, scenario_alarm 2 3]
            (some (scenario_alarm 2 3)))).settings_dialog
        = (scenario_applet [scenario_alarm 1 1, scenario_alarm 2 3]
            (some (scenario_alarm 2 3))).settings_dialog
      ∧ alarm_applet_gconf_global_change scenario_headers (scenario_alarm 9 0)
          { key := "/apps/alarm-clock/3/message", value := some (.string "tea") }
          (scenario_applet [scenario_alarm 1 1, scenario_alarm 2 3]
            (some (scenario_alarm 2 3)))
        = scenario_applet [scenario_alarm 1 1, scenario_alarm 2 3]
            (some (scenario_alarm 2 3))) :=
  ⟨⟨by decide, by decide, by decide⟩,
    gconf_change_existing_or_missing_noop scenario_headers (scenario_alarm 9 0)
      { key := "/apps/alarm-clock/3/message", value := some (.string "tea") }
      (scenario_applet [scenario_alarm 1 1, scenario_alarm 2 3] (some (scenario_alarm 2 3))) 3
      (by decide) (by decide) (by decide)⟩

/-- C5: if every alarm id occurs at most once in the collection before the callback
runs, then for every change event every alarm id occurs at most once afterwards.
An alarm that is gone afterwards had the id of the event, whose value was absent, and
an alarm that is new afterwards has the id of the event, whose value was present and
whose id no alarm had before.  On a deletion event for a valid id that some alarm
has, the matching alarm is removed: no alarm with that id is left and the collection
is shorter by exactly one.  On an event with a value for a valid id that no alarm
has, exactly one alarm with that id is appended; on an event with a value for an id
that an alarm already has, the collection is unchanged, so no duplicate arises. -/
theorem gconf_change_preserves_unique_ids (h : Headers) (obj : Alarm) (entry : GConfEntry)
    (applet : AlarmApplet) (huniq : (applet.alarms.map Alarm.id).Nodup) :
    ((alarm_applet_gconf_global_change h obj entry applet).alarms.map Alarm.id).Nodup
    ∧ (∀ b ∈ applet.alarms, b ∉ (alarm_applet_gconf_global_change h obj entry applet).alarms →
        b.id = h.alarm_gconf_dir_get_id (extract_segment h.ALARM_GCONF_DIR entry.key)
        ∧ entry.value = none)
    ∧ (∀ b ∈ (alarm_applet_gconf_global_change h obj entry applet).alarms, b ∉ applet.alarms →
        b.id = h.alarm_gconf_dir_get_id (extract_segment h.ALARM_GCONF_DIR entry.key)
        ∧ entry.value ≠ none
        ∧ ∀ c ∈ applet.alarms,
            c.id ≠ h.alarm_gconf_dir_get_id (extract_segment h.ALARM_GCONF_DIR entry.key))
    ∧ (entry.value = none →
        0 ≤ h.alarm_gconf_dir_get_id (extract_segment h.ALARM_GCONF_DIR entry.key) →
        (∃ a ∈ applet.alarms,
          a.id = h.alarm_gconf_dir_get_id (extract_segment h.ALARM_GCONF_DIR entry.key)) →
        (∀ b ∈ (alarm_applet_gconf_global_change h obj entry applet).alarms,
          b.id ≠ h.alarm_gconf_dir_get_id (extract_segment h.ALARM_GCONF_DIR entry.key))
        ∧ (alarm_applet_gconf_global_change h obj entry applet).alarms.length + 1
            = applet.alarms.length)
    ∧ (entry.value ≠ none →
        0 ≤ h.alarm_gconf_dir_get_id (extract_segment h.ALARM_GCONF_DIR entry.key) →
        (∀ a ∈ applet.alarms,
          a.id ≠ h.alarm_gconf_dir_get_id (extract_segment h.ALARM_GCONF_DIR entry.key)) →
        ∃ a, a.id = h.alarm_gconf_dir_get_id (extract_segment h.ALARM_GCONF_DIR entry.key)
          ∧ (alarm_applet_gconf_global_change h obj entry applet).alarms
              = applet.alarms ++ [a])
    ∧ (entry.value ≠ none →
        (∃ a ∈ applet.alarms,
          a.id = h.alarm_gconf_dir_get_id (extract_segment h.ALARM_GCONF_DIR entry.key)) →
        (alarm_applet_gconf_global_change h obj entry applet).alarms = applet.alarms) := by
  refine ⟨?_, ?_, ?_, ?_, ?_, ?_⟩
  · rcases gconf_change_cases h obj entry applet with
      hkeep | ⟨a, hid, hf, hval⟩ | ⟨hid, hf, hval⟩
    · rw [hkeep]
      exact huniq
    · rw [gconf_change_delete h obj entry applet a hid hf hval, remove_alarms_of_dialog_step]
      exact huniq.sublist ((List.erase_sublist a applet.alarms).map Alarm.id)
    · have habs := find_alarm_none.mp hf
      rw [gconf_change_create h obj entry applet hid hf hval]
      show ((applet.alarms ++ [alarm_new obj h.ALARM_GCONF_DIR _]).map Alarm.id).Nodup
      rw [List.map_append, List.nodup_append]
      refine ⟨huniq, by simp, ?_⟩
      intro x hx1 hx2
      obtain ⟨c, hc, hcx⟩ := List.mem_map.mp hx1
      simp only [List.map_cons, List.map_nil, List.mem_singleton] at hx2
      rw [hx2] at hcx
      exact habs c hc hcx
  · intro b hb hnb
    rcases gconf_change_cases h obj entry applet with
      hkeep | ⟨a, hid, hf, hval⟩ | ⟨hid, hf, hval⟩
    · rw [hkeep] at hnb
      exact absurd hb hnb
    · rw [gconf_change_delete h obj entry applet a hid hf hval,
        remove_alarms_of_dialog_step] at hnb
      obtain ⟨l1, l2, hl, haid, hl1⟩ := find_alarm_some hf
      have hba : b = a := by
        by_contra hne
        exact hnb ((List.mem_erase_of_ne hne).mpr hb)
      rw [hba]
      exact ⟨haid, hval⟩
    · rw [gconf_change_create h obj entry applet hid hf hval] at hnb
      exact absurd (List.mem_append_left _ hb) hnb
  · intro b hb hnb
    rcases gconf_change_cases h obj entry applet with
      hkeep | ⟨a, hid, hf, hval⟩ | ⟨hid, hf, hval⟩
    · rw [hkeep] at hb
      exact absurd hb hnb
    · rw [gconf_change_delete h obj entry applet a hid hf hval,
        remove_alarms_of_dialog_step] at hb
      exact absurd (List.mem_of_mem_erase hb) hnb
    · have habs := find_alarm_none.mp hf
      rw [gconf_change_create h obj entry applet hid hf hval] at hb
      rcases List.mem_append.mp hb with hb1 | hb2
      · exact absurd hb1 hnb
      · rw [List.mem_singleton.mp hb2]
        exact ⟨rfl, hval, habs⟩
  · intro hval hid hex
    obtain ⟨l1, a, l2, hl, _, hafter, hnone⟩ :=
      gconf_change_delete_unique h obj entry applet _ huniq hval rfl hid hex
    rw [hafter]
    refine ⟨hnone, ?_⟩
    rw [hl]
    simp only [List.length_append, List.length_cons]
    omega
  · intro hval hid habs
    rw [gconf_change_create h obj entry applet hid (find_alarm_none.mpr habs) hval]
    exact ⟨alarm_new obj h.ALARM_GCONF_DIR _, rfl, rfl⟩
  · intro hval hex
    obtain ⟨a, hf⟩ := find_alarm_of_mem hex
    rw [gconf_change_keep h obj entry applet (Or.inl ⟨a, hf, hval⟩)]

/-- The scenario of C5: ids 1 and 3 are present, each once, and a deletion event
arrives for id 3; the alarm with id 3 is removed, the ids stay distinct, and only the
alarm with id 1 is left. -/
theorem gconf_change_preserves_unique_ids_witness :
    (((scenario_applet [scenario_alarm 1 1, scenario_alarm 2 3] none).alarms.map
          Alarm.id).Nodup
      ∧ (⟨"/apps/alarm-clock/3", none⟩ : GConfEntry).value = none
      ∧ 0 ≤ scenario_headers.alarm_gconf_dir_get_id
          (extract_segment scenario_headers.ALARM_GCONF_DIR "/apps/alarm-clock/3")
      ∧ ∃ a ∈ (scenario_applet [scenario_alarm 1 1, scenario_alarm 2 3] none).alarms,
          a.id = scenario_headers.alarm_gconf_dir_get_id
            (extract_segment scenario_headers.ALARM_GCONF_DIR "/apps/alarm-clock/3"))
    ∧ ((alarm_applet_gconf_global_change scenario_headers (scenario_alarm 9 0)
          { key := "/apps/alarm-clock/3", value := none }
          (scenario_applet [scenario_alarm 1 1, scenario_alarm 2 3] none)).alarms.map
          Alarm.id).Nodup
    ∧ ((∀ b ∈ (alarm_applet_gconf_global_change scenario_headers (scenario_alarm 9 0)
          { key := "/apps/alarm-clock/3", value := none }
          (scenario_applet [scenario_alarm 1 1, scenario_alarm 2 3] none)).alarms,
          b.id ≠ scenario_headers.alarm_gconf_dir_get_id
            (extract_segment scenario_headers.ALARM_GCONF_DIR "/apps/alarm-clock/3"))
      ∧ (alarm_applet_gconf_global_change scenario_headers (scenario_alarm 9 0)
          { key := "/apps/alarm-clock/3", value := none }
          (scenario_applet [scenario_alarm 1 1, scenario_alarm 2 3] none)).alarms.length + 1
        = (scenario_applet [scenario_alarm 1 1, scenario_alarm 2 3] none).alarms.length)
    ∧ (alarm_applet_gconf_global_change scenario_headers (scenario_alarm 9 0)
          { key := "/apps/alarm-clock/3", value := none }
          (scenario_applet [scenario_alarm 1 1, scenario_alarm 2 3] none)).alarms
        = [scenario_alarm 1 1] :=
  ⟨⟨by decide, rfl, by decide, by decide⟩,
    (gconf_change_preserves_unique_ids scenario_headers (scenario_alarm 9 0)
      { key := "/apps/alarm-clock/3", value := none }
      (scenario_applet [scenario_alarm 1 1, scenario_alarm 2 3] none) (by decide)).1,
    (gconf_change_preserves_unique_ids scenario_headers (scenario_alarm 9 0)
      { key := "/apps/alarm-clock/3", value := none }
      (scenario_applet [scenario_alarm 1 1, scenario_alarm 2 3] none) (by decide)).2.2.2.1
      rfl (by decide) (by decide),
    by decide⟩

/-- C6: for a key that is the watched directory itself the segment handed to the id
parser is empty; for a key that is the directory followed by `/` and a remainder, the
segment is the longest initial part of the remainder without `/`: the remainder is
the segment followed by a rest that is empty or starts with `/`, the segment has no
`/`, and no initial part of the remainder without `/` is longer. -/
theorem extract_segment_is_first_segment (dir key : String) :
    (key = dir → extract_segment dir key = "")
    ∧ (∀ rem : String, key = dir ++ "/" ++ rem →
        (∃ rest : String, rem = extract_segment dir key ++ rest
          ∧ (rest = "" ∨ rest.data.head? = some '/'))
        ∧ '/' ∉ (extract_segment dir key).data
        ∧ (∀ p q : String, rem = p ++ q → '/' ∉ p.data →
            p.length ≤ (extract_segment dir key).length)) := by
  constructor
  · intro hkey
    have hlen : dir.data.length ≤ dir.length + 1 := by
      show dir.data.length ≤ dir.data.length + 1
      omega
    rw [hkey, extract_segment_eq, List.drop_eq_nil_of_le hlen]
    rfl
  · intro rem hkey
    rw [hkey, extract_segment_under_dir]
    refine ⟨⟨⟨rem.data.dropWhile (fun c => decide (c ≠ '/'))⟩, ?_, ?_⟩, ?_, ?_⟩
    · apply String.ext
      simp [String.data_append, List.takeWhile_append_dropWhile]
    · rcases dropWhile_sep_head rem.data with hnil | hhead
      · left
        apply String.ext
        simpa using hnil
      · right
        exact hhead
    · exact no_sep_takeWhile rem.data
    · intro p q hpq hp
      have hdata : rem.data = p.data ++ q.data := by rw [hpq, String.data_append]
      show p.data.length ≤ (rem.data.takeWhile (fun c => decide (c ≠ '/'))).length
      rw [hdata]
      exact length_le_takeWhile_of_no_sep p.data q.data hp

theorem extract_segment_is_first_segment_witness :
    (("/apps/alarm-clock" : String) = "/apps/alarm-clock" →
        extract_segment "/apps/alarm-clock" "/apps/alarm-clock" = "")
    ∧ (("/apps/alarm-clock/12/message" : String) = "/apps/alarm-clock" ++ "/" ++ "12/message"
      ∧ extract_segment "/apps/alarm-clock" "/apps/alarm-clock/12/message" = "12"
      ∧ (∃ rest : String,
          "12/message" = extract_segment "/apps/alarm-clock" "/apps/alarm-clock/12/message" ++ rest
          ∧ (rest = "" ∨ rest.data.head? = some '/'))
      ∧ '/' ∉ (extract_segment "/apps/alarm-clock" "/apps/alarm-clock/12/message").data
      ∧ (∀ p q : String, "12/message" = p ++ q → '/' ∉ p.data →
          p.length
            ≤ (extract_segment "/apps/alarm-clock" "/apps/alarm-clock/12/message").length)) :=
  ⟨(extract_segment_is_first_segment "/apps/alarm-clock" "/apps/alarm-clock").1,
    by decide, by decide,
    (extract_segment_is_first_segment "/apps/alarm-clock" "/apps/alarm-clock/12/message").2
      "12/message" (by decide)⟩

/-- C7: on a deletion event for an id X present in the collection, let `a` be the alarm
that is removed (the first with id X).  If the settings dialog is bound to `a`, the
callback closes the dialog and then removes the alarm: the calls made are the close
followed by the removal, and the dialog is bound to no alarm afterwards.  If the
dialog is bound to another alarm or to none, the only call made is the removal and
the dialog is as it was. -/
theorem gconf_change_delete_closes_dialog_first (h : Headers) (obj : Alarm) (entry : GConfEntry)
    (applet : AlarmApplet) (X : Int)
    (hval : entry.value = none)
    (hid : h.alarm_gconf_dir_get_id (extract_segment h.ALARM_GCONF_DIR entry.key) = X)
    (hX : 0 ≤ X)
    (hex : ∃ a ∈ applet.alarms, a.id = X) :
    ∃ l1 a l2, applet.alarms = l1 ++ a :: l2 ∧ a.id = X ∧ (∀ b ∈ l1, b.id ≠ X)
      ∧ (alarm_applet_gconf_global_change h obj entry applet).alarms = l1 ++ l2
      ∧ (applet.settings_dialog.alarm = some a →
          (alarm_applet_gconf_global_change h obj entry applet).log
            = applet.log ++ [Call.alarm_settings_dialog_close, Call.alarm_applet_alarms_remove a]
          ∧ (alarm_applet_gconf_global_change h obj entry applet).settings_dialog.alarm = none)
      ∧ (applet.settings_dialog.alarm ≠ some a →
          (alarm_applet_gconf_global_change h obj entry applet).log
            = applet.log ++ [Call.alarm_applet_alarms_remove a]
          ∧ (alarm_applet_gconf_global_change h obj entry applet).settings_dialog
            = applet.settings_dialog) := by
  obtain ⟨a, hf⟩ := find_alarm_of_mem hex
  obtain ⟨l1, l2, hl, haid, hl1⟩ := find_alarm_some hf
  have hstep := gconf_change_delete h obj entry applet a (by omega) (by rw [hid]; exact hf) hval
  refine ⟨l1, a, l2, hl, haid, hl1, ?_, ?_, ?_⟩
  · rw [hstep, remove_alarms_of_dialog_step, hl, erase_first_match haid hl1]
  · intro hbound
    rw [hstep, if_pos hbound]
    simp [alarm_applet_alarms_remove, alarm_settings_dialog_close]
  · intro hfree
    rw [hstep, if_neg hfree]
    simp [alarm_applet_alarms_remove]

/-- The scenario of C7: the settings dialog of id 3 is open and a deletion event for
id 3 arrives; the dialog is closed, then the alarm is removed. -/
theorem gconf_change_delete_closes_dialog_first_witness :
    ((⟨"/apps/alarm-clock/3", none⟩ : GConfEntry).value = none
      ∧ scenario_headers.alarm_gconf_dir_get_id
          (extract_segment scenario_headers.ALARM_GCONF_DIR "/apps/alarm-clock/3") = 3
      ∧ (0 : Int) ≤ 3
      ∧ ∃ a ∈ (scenario_applet [scenario_alarm 1 1, scenario_alarm 2 3]
          (some (scenario_alarm 2 3))).alarms, a.id = 3)
    ∧ (∃ l1 a l2, (scenario_applet [scenario_alarm 1 1, scenario_alarm 2 3]
          (some (scenario_alarm 2 3))).alarms = l1 ++ a :: l2 ∧ a.id = 3
        ∧ (∀ b ∈ l1, b.id ≠ 3)
        ∧ (alarm_applet_gconf_global_change scenario_headers (scenario_alarm 9 0)
            { key := "/apps/alarm-clock/3", value := none }
            (scenario_applet [scenario_alarm 1 1, scenario_alarm 2 3]
              (some (scenario_alarm 2 3)))).alarms = l1 ++ l2
        ∧ ((scenario_applet [scenario_alarm 1 1, scenario_alarm 2 3]
              (some (scenario_alarm 2 3))).settings_dialog.alarm = some a →
            (alarm_applet_gconf_global_change scenario_headers (scenario_alarm 9 0)
              { key := "/apps/alarm-clock/3", value := none }
              (scenario_applet [scenario_alarm 1 1, scenario_alarm 2 3]
                (some (scenario_alarm 2 3)))).log
              = (scenario_applet [scenario_alarm 1 1, scenario_alarm 2 3]
                  (some (scenario_alarm 2 3))).log
                ++ [Call.alarm_settings_dialog_close, Call.alarm_applet_alarms_remove a]
            ∧ (alarm_applet_gconf_global_change scenario_headers (scenario_alarm 9 0)
              { key := "/apps/alarm-clock/3", value := none }
              (scenario_applet [scenario_alarm 1 1, scenario_alarm 2 3]
                (some (scenario_alarm 2 3)))).settings_dialog.alarm = none)
        ∧ ((scenario_applet [scenario_alarm 1 1, scenario_alarm 2 3]
              (some (scenario_alarm 2 3))).settings_dialog.alarm ≠ some a →
            (alarm_applet_gconf_global_change scenario_headers (scenario_alarm 9 0)
              { key := "/apps/alarm-clock/3", value := none }
              (scenario_applet [scenario_alarm 1 1, scenario_alarm 2 3]
                (some (scenario_alarm 2 3)))).log
              = (scenario_applet [scenario_alarm 1 1, scenario_alarm 2 3]
                  (some (scenario_alarm 2 3))).log
                ++ [Call.alarm_applet_alarms_remove a]
            ∧ (alarm_applet_gconf_global_change scenario_headers (scenario_alarm 9 0)
              { key := "/apps/alarm-clock/3", value := none }
              (scenario_applet [scenario_alarm 1 1, scenario_alarm 2 3]
                (some (scenario_alarm 2 3)))).settings_dialog
              = (scenario_applet [scenario_alarm 1 1, scenario_alarm 2 3]
                  (some (scenario_alarm 2 3))).settings_dialog))
    ∧ (alarm_applet_gconf_global_change scenario_headers (scenario_alarm 9 0)
          { key := "/apps/alarm-clock/3", value := none }
          (scenario_applet [scenario_alarm 1 1, scenario_alarm 2 3]
            (some (scenario_alarm 2 3)))).log
        = [Call.alarm_settings_dialog_close, Call.alarm_applet_alarms_remove (scenario_alarm 2 3)] :=
  ⟨⟨rfl, by decide, by decide, by decide⟩,
    gconf_change_delete_closes_dialog_first scenario_headers (scenario_alarm 9 0)
      { key := "/apps/alarm-clock/3", value := none }
      (scenario_applet [scenario_alarm 1 1, scenario_alarm 2 3] (some (scenario_alarm 2 3))) 3
      rfl (by decide) (by decide) (by decide),
    by decide⟩

/-! ## The UI event relay -/

/-- C8: the triggered handler increases `n_triggered` by exactly 1 and the cleared
handler decreases it by exactly 1; hence, starting from count 0, for every sequence
of triggered and cleared signals in which the cleared signals never outnumber the
earlier triggered ones, after every initial part of the sequence the count is not
negative and equals the number of triggered signals minus the number of cleared
ones. -/
theorem n_triggered_counts_outstanding (h : Headers) :
    (∀ (shown : Bool) (alarm : Alarm) (applet : AlarmApplet),
        (alarm_applet_alarm_triggered h shown alarm applet).n_triggered
          = applet.n_triggered + 1)
    ∧ (∀ (alarm : Alarm) (applet : AlarmApplet),
        (alarm_applet_alarm_cleared alarm applet).n_triggered = applet.n_triggered - 1)
    ∧ (∀ (applet : AlarmApplet) (sigs : List Signal),
        applet.n_triggered = 0 → balanced sigs → ∀ k, k ≤ sigs.length →
          0 ≤ (run_signals h applet (sigs.take k)).n_triggered
          ∧ (run_signals h applet (sigs.take k)).n_triggered
            = (count_triggered (sigs.take k) : Int) - (count_cleared (sigs.take k) : Int)) := by
  refine ⟨?_, ?_, ?_⟩
  · intro shown alarm applet
    cases shown <;> rfl
  · intro alarm applet
    rfl
  · intro applet sigs hzero hbal k hk
    have hcount := run_signals_n_triggered h (sigs.take k) applet
    have hle := hbal k hk
    rw [hzero] at hcount
    constructor <;> omega

theorem n_triggered_counts_outstanding_witness :
    (scenario_applet [scenario_alarm 1 1, scenario_alarm 2 3] none).n_triggered = 0
    ∧ balanced [Signal.triggered (scenario_alarm 1 1) true,
        Signal.triggered (scenario_alarm 2 3) false, Signal.cleared (scenario_alarm 1 1),
        Signal.cleared (scenario_alarm 2 3)]
    ∧ (3 : Nat) ≤ [Signal.triggered (scenario_alarm 1 1) true,
        Signal.triggered (scenario_alarm 2 3) false, Signal.cleared (scenario_alarm 1 1),
        Signal.cleared (scenario_alarm 2 3)].length
    ∧ (run_signals scenario_headers (scenario_applet [scenario_alarm 1 1, scenario_alarm 2 3] none)
        ([Signal.triggered (scenario_alarm 1 1) true,
          Signal.triggered (scenario_alarm 2 3) false, Signal.cleared (scenario_alarm 1 1),
          Signal.cleared (scenario_alarm 2 3)].take 3)).n_triggered = 1
    ∧ (0 ≤ (run_signals scenario_headers
          (scenario_applet [scenario_alarm 1 1, scenario_alarm 2 3] none)
          ([Signal.triggered (scenario_alarm 1 1) true,
            Signal.triggered (scenario_alarm 2 3) false, Signal.cleared (scenario_alarm 1 1),
            Signal.cleared (scenario_alarm 2 3)].take 3)).n_triggered
      ∧ (run_signals scenario_headers
          (scenario_applet [scenario_alarm 1 1, scenario_alarm 2 3] none)
          ([Signal.triggered (scenario_alarm 1 1) true,
            Signal.triggered (scenario_alarm 2 3) false, Signal.cleared (scenario_alarm 1 1),
            Signal.cleared (scenario_alarm 2 3)].take 3)).n_triggered
        = (count_triggered ([Signal.triggered (scenario_alarm 1 1) true,
            Signal.triggered (scenario_alarm 2 3) false, Signal.cleared (scenario_alarm 1 1),
            Signal.cleared (scenario_alarm 2 3)].take 3) : Int)
          - (count_cleared ([Signal.triggered (scenario_alarm 1 1) true,
            Signal.triggered (scenario_alarm 2 3) false, Signal.cleared (scenario_alarm 1 1),
            Signal.cleared (scenario_alarm 2 3)].take 3) : Int)) :=
  ⟨rfl, by decide, by decide, by decide,
    (n_triggered_counts_outstanding scenario_headers).2.2
      (scenario_applet [scenario_alarm 1 1, scenario_alarm 2 3] none)
      [Signal.triggered (scenario_alarm 1 1) true,
        Signal.triggered (scenario_alarm 2 3) false, Signal.cleared (scenario_alarm 1 1),
        Signal.cleared (scenario_alarm 2 3)]
      rfl (by decide) 3 (by decide)⟩

/-- C9: the triggered handler shows exactly one desktop notification, whose summary is
the alarm's message, whose body is the fixed text, and whose icon is `TIMER_ICON`
when the alarm's type is `ALARM_TYPE_TIMER` and `ALARM_ICON` otherwise; after it (and
after the warning logged if showing failed) it updates the blinking of the status
icon from the new count and then refreshes action sensitivity. -/
theorem triggered_shows_one_notification (h : Headers) (shown : Bool) (alarm : Alarm)
    (applet : AlarmApplet) :
    (alarm_applet_alarm_triggered h shown alarm applet).log
      = applet.log
        ++ [Call.notify_notification_show alarm.message
              "You can snooze or stop alarms from the Alarm Clock menu."
              (if alarm.type = h.ALARM_TYPE_TIMER then h.TIMER_ICON else h.ALARM_ICON)]
        ++ (if shown then [] else [Call.g_warning])
        ++ [Call.gtk_status_icon_set_blinking (decide (applet.n_triggered + 1 > 0)),
            Call.alarm_applet_actions_update_sensitive]
    ∧ (((alarm_applet_alarm_triggered h shown alarm applet).log.drop applet.log.length).filter
        Call.is_notification).length = 1
    ∧ (alarm_applet_alarm_triggered h shown alarm applet).status_icon.blinking
        = decide (applet.n_triggered + 1 > 0) := by
  cases shown <;>
    simp [alarm_applet_alarm_triggered, alarm_applet_notification_show,
      alarm_applet_status_update, alarm_applet_actions_update_sensitive, notification_body,
      Call.is_notification]

/-- C10: the property-change handler calls the action enable/disable update if and only
if the name of the changed property is exactly "active"; it refreshes the row of the
alarm in the list window if and only if a list window exists and is visible; these
are the only calls it makes, and it leaves the settings dialog, the collection and
the count as they were, also when the dialog is bound to that alarm. -/
theorem alarm_changed_dispatch (alarm : Alarm) (pname : String) (applet : AlarmApplet) :
    (alarm_applet_alarm_changed alarm pname applet).log
      = applet.log
        ++ (if pname = "active" then [Call.alarm_action_update_enabled] else [])
        ++ (if applet.list_window.any (fun w => w.window_visible)
            then [Call.alarm_list_window_alarm_update alarm] else [])
    ∧ (Call.alarm_action_update_enabled
          ∈ (alarm_applet_alarm_changed alarm pname applet).log.drop applet.log.length
        ↔ pname = "active")
    ∧ (Call.alarm_list_window_alarm_update alarm
          ∈ (alarm_applet_alarm_changed alarm pname applet).log.drop applet.log.length
        ↔ ∃ w, applet.list_window = some w ∧ w.window_visible = true)
    ∧ (alarm_applet_alarm_changed alarm pname applet).settings_dialog = applet.settings_dialog
    ∧ (alarm_applet_alarm_changed alarm pname applet).alarms = applet.alarms
    ∧ (alarm_applet_alarm_changed alarm pname applet).n_triggered = applet.n_triggered := by
  by_cases hp : pname = "active" <;> rcases hw : applet.list_window with _ | ⟨_ | _⟩ <;>
    simp [alarm_applet_alarm_changed, alarm_action_update_enabled,
      alarm_list_window_alarm_update, hp, hw]

/-- C11: after the triggered handler and after the cleared handler, the blinking state
of the status icon is `n_triggered > 0` on the updated count, and that is the value
passed to `gtk_status_icon_set_blinking`.  Hence the icon blinks after a trigger from
a non-negative count; and from a state whose blinking agrees with its count, a clear
stops the blinking (blinking before, not after) exactly when it brings the count to
0; likewise, from a positive count the icon is not blinking after a clear exactly
when the new count is 0. -/
theorem status_blinking_tracks_count (h : Headers) :
    (∀ (shown : Bool) (alarm : Alarm) (applet : AlarmApplet),
        (alarm_applet_alarm_triggered h shown alarm applet).status_icon.blinking
          = decide ((alarm_applet_alarm_triggered h shown alarm applet).n_triggered > 0)
        ∧ Call.gtk_status_icon_set_blinking
            (decide ((alarm_applet_alarm_triggered h shown alarm applet).n_triggered > 0))
          ∈ (alarm_applet_alarm_triggered h shown alarm applet).log.drop applet.log.length)
    ∧ (∀ (alarm : Alarm) (applet : AlarmApplet),
        (alarm_applet_alarm_cleared alarm applet).status_icon.blinking
          = decide ((alarm_applet_alarm_cleared alarm applet).n_triggered > 0)
        ∧ Call.gtk_status_icon_set_blinking
            (decide ((alarm_applet_alarm_cleared alarm applet).n_triggered > 0))
          ∈ (alarm_applet_alarm_cleared alarm applet).log.drop applet.log.length)
    ∧ (∀ (shown : Bool) (alarm : Alarm) (applet : AlarmApplet), 0 ≤ applet.n_triggered →
        (alarm_applet_alarm_triggered h shown alarm applet).status_icon.blinking = true)
    ∧ (∀ (alarm : Alarm) (applet : AlarmApplet),
        applet.status_icon.blinking = decide (applet.n_triggered > 0) →
        ((applet.status_icon.blinking = true
            ∧ (alarm_applet_alarm_cleared alarm applet).status_icon.blinking = false)
          ↔ (alarm_applet_alarm_cleared alarm applet).n_triggered = 0))
    ∧ (∀ (alarm : Alarm) (applet : AlarmApplet), 0 < applet.n_triggered →
        ((alarm_applet_alarm_cleared alarm applet).status_icon.blinking = false
          ↔ (alarm_applet_alarm_cleared alarm applet).n_triggered = 0)) := by
  have htrig : ∀ (shown : Bool) (alarm : Alarm) (applet : AlarmApplet),
      (alarm_applet_alarm_triggered h shown alarm applet).n_triggered = applet.n_triggered + 1
      ∧ (alarm_applet_alarm_triggered h shown alarm applet).status_icon.blinking
          = decide (applet.n_triggered + 1 > 0) := by
    intro shown alarm applet
    cases shown <;> exact ⟨rfl, rfl⟩
  have hclear : ∀ (alarm : Alarm) (applet : AlarmApplet),
      (alarm_applet_alarm_cleared alarm applet).n_triggered = applet.n_triggered - 1
      ∧ (alarm_applet_alarm_cleared alarm applet).status_icon.blinking
          = decide (applet.n_triggered - 1 > 0) := fun _ _ => ⟨rfl, rfl⟩
  refine ⟨?_, ?_, ?_, ?_, ?_⟩
  · intro shown alarm applet
    obtain ⟨hn, hb⟩ := htrig shown alarm applet
    refine ⟨by rw [hb, hn], ?_⟩
    rw [hn]
    cases shown <;>
      simp [alarm_applet_alarm_triggered, alarm_applet_notification_show,
        alarm_applet_status_update, alarm_applet_actions_update_sensitive]
  · intro alarm applet
    obtain ⟨hn, hb⟩ := hclear alarm applet
    refine ⟨by rw [hb, hn], ?_⟩
    rw [hn]
    simp [alarm_applet_alarm_cleared, alarm_applet_status_update,
      alarm_applet_actions_update_sensitive]
  · intro shown alarm applet hnonneg
    rw [(htrig shown alarm applet).2]
    exact decide_eq_true (by omega)
  · intro alarm applet hagree
    obtain ⟨hn, hb⟩ := hclear alarm applet
    rw [hb, hn, hagree]
    simp only [decide_eq_true_eq, decide_eq_false_iff_not]
    omega
  · intro alarm applet hpos
    obtain ⟨hn, hb⟩ := hclear alarm applet
    rw [hb, hn]
    simp only [decide_eq_false_iff_not]
    omega

/-- The scenario of C11: one alarm is triggered from count 0, so the icon blinks; its
clear brings the count back to 0 and the icon stops blinking. -/
theorem status_blinking_tracks_count_witness :
    ((0 : Int) ≤ (scenario_applet [scenario_alarm 1 1] none).n_triggered
      ∧ (alarm_applet_alarm_triggered scenario_headers true (scenario_alarm 1 1)
          (scenario_applet [scenario_alarm 1 1] none)).status_icon.blinking = true)
    ∧ ((alarm_applet_alarm_triggered scenario_headers true (scenario_alarm 1 1)
          (scenario_applet [scenario_alarm 1 1] none)).status_icon.blinking
        = decide ((alarm_applet_alarm_triggered scenario_headers true (scenario_alarm 1 1)
            (scenario_applet [scenario_alarm 1 1] none)).n_triggered > 0)
      ∧ (((alarm_applet_alarm_triggered scenario_headers true (scenario_alarm 1 1)
              (scenario_applet [scenario_alarm 1 1] none)).status_icon.blinking = true
          ∧ (alarm_applet_alarm_cleared (scenario_alarm 1 1)
              (alarm_applet_alarm_triggered scenario_headers true (scenario_alarm 1 1)
                (scenario_applet [scenario_alarm 1 1] none))).status_icon.blinking = false)
        ↔ (alarm_applet_alarm_cleared (scenario_alarm 1 1)
              (alarm_applet_alarm_triggered scenario_headers true (scenario_alarm 1 1)
                (scenario_applet [scenario_alarm 1 1] none))).n_triggered = 0))
    ∧ (alarm_applet_alarm_cleared (scenario_alarm 1 1)
          (alarm_applet_alarm_triggered scenario_headers true (scenario_alarm 1 1)
            (scenario_applet [scenario_alarm 1 1] none))).status_icon.blinking = false
    ∧ (alarm_applet_alarm_cleared (scenario_alarm 1 1)
          (alarm_applet_alarm_triggered scenario_headers true (scenario_alarm 1 1)
            (scenario_applet [scenario_alarm 1 1] none))).n_triggered = 0 :=
  ⟨⟨by decide,
      (status_blinking_tracks_count scenario_headers).2.2.1 true (scenario_alarm 1 1)
        (scenario_applet [scenario_alarm 1 1] none) (by decide)⟩,
    ⟨by decide,
      (status_blinking_tracks_count scenario_headers).2.2.2.1 (scenario_alarm 1 1)
        (alarm_applet_alarm_triggered scenario_headers true (scenario_alarm 1 1)
          (scenario_applet [scenario_alarm 1 1] none)) (by decide)⟩,
    by decide, by decide⟩

/-- C12: for every applet state the status icon callback activates exactly one action:
the snooze-all action when `n_triggered > 0`, the list window toggle otherwise.  That
activation is the only call it makes, it never activates both, and apart from the
record of calls the applet state, `n_triggered` included, is as it was. -/
theorem status_activate_one_action (applet : AlarmApplet) :
    (alarm_applet_status_activate applet).log
      = applet.log ++ [Call.gtk_action_activate
          (if applet.n_triggered > 0 then AppletAction.action_snooze_all
            else AppletAction.action_toggle_list_win)]
    ∧ (((alarm_applet_status_activate applet).log.drop applet.log.length).filter
        Call.is_activation).length = 1
    ∧ (Call.gtk_action_activate AppletAction.action_snooze_all
          ∈ (alarm_applet_status_activate applet).log.drop applet.log.length
        ↔ applet.n_triggered > 0)
    ∧ (Call.gtk_action_activate AppletAction.action_toggle_list_win
          ∈ (alarm_applet_status_activate applet).log.drop applet.log.length
        ↔ ¬ applet.n_triggered > 0)
    ∧ (alarm_applet_status_activate applet).n_triggered = applet.n_triggered
    ∧ alarm_applet_status_activate applet
        = { applet with log := (alarm_applet_status_activate applet).log } := by
  by_cases hn : applet.n_triggered > 0 <;>
    simp [alarm_applet_status_activate, hn, Call.is_activation]

end AlarmClock
